import Mathlib

/-!
Verification of the Data-Broker refinement pipeline
(`backend/services/refine_service.py`, `backend/pipeline/*.py`,
`backend/routes/refinement_routes.py`, `backend/services/package_service.py`)
against its natural-language specification.

Modelling conventions:
- Python floats are modelled as rationals (`ℚ`); the constants involved are
  exact decimals and every property at stake is far coarser than the 1e-9
  tolerance the spec allows.
- The SQLAlchemy session is modelled as an explicit `DBState` record; a
  `commit` of a new row is an append to the corresponding list.
- `created_at` (Python `datetime.utcnow`) is modelled by a strictly
  increasing logical clock (`DBState.clock`), one tick per committed row.
  The random UUID primary key is not modelled; record identity is carried
  by `created_at`.
- Raised `ValueError`s are modelled with `Except`; the two distinct raise
  sites of `PackageService.create_package` are kept distinguishable.
- `refine_dataset` additionally returns the ordered list of assignments the
  run makes to `dataset.stage`, so that claims about observable intermediate
  stages can be stated.
-/

/-- The `PipelineStage` enum from `backend/models/dataset.py`. -/
inductive PipelineStage where
  | ingested
  | stored
  | refining
  | refined
  | packaged
  | listed
  | sold
deriving DecidableEq, Repr

/-- The five quality dimensions of a quality report
(keys of the `scores` dict in `RefinementService._score_quality`). -/
structure QualityScores where
  completeness : ℚ
  clarity : ℚ
  relevance : ℚ
  format_validity : ℚ
  metadata_quality : ℚ
deriving DecidableEq, Repr

/-- Classification output: per label dimension, a distribution of labels. -/
abbrev Classifications := List (String × List (String × ℚ))

/-- The `RefinementRecord` row (`backend/models/dataset.py`); the fields the
refinement pipeline writes. `processing_duration_seconds` and `error_log`
are never written by `refine_dataset` and are left out. -/
structure RefinementRecord where
  dataset_id : String
  pipeline_stage : String
  quality_scores : QualityScores
  overall_quality : ℚ
  items_processed : Nat
  items_passed : Nat
  items_rejected : Nat
  classifications : Classifications
  duplicates_found : Nat
  duplicate_removal_method : String
  created_at : Nat
deriving DecidableEq, Repr

/-- The `Dataset` row (`backend/models/dataset.py`); the fields the pipeline and
packaging read or write. -/
structure Dataset where
  id : String
  file_count : Nat
  total_size_bytes : Nat
  stage : PipelineStage
  quality_score : ℚ
deriving DecidableEq, Repr

/-- The `quality_metrics` dict built by `PackageService.create_package`. -/
structure QualityMetrics where
  overall_score : ℚ
  items_included : Nat
  quality_breakdown : Option QualityScores
deriving DecidableEq, Repr

/-- The `DataPackage` row (`backend/models/dataset.py`); the fields
`create_package` fills from the dataset and its latest refinement record
(manifest and provenance log are not referenced by any verified property). -/
structure DataPackage where
  source_dataset_id : String
  name : String
  description : String
  version : String
  items_count : Nat
  package_size_bytes : Nat
  quality_score : ℚ
  quality_metrics : QualityMetrics
  license_type : String
  created_at : Nat
deriving DecidableEq, Repr

/-- The persistent store: dataset rows, refinement-record rows, package rows,
and the logical clock stamping `created_at`. -/
structure DBState where
  datasets : List Dataset
  records : List RefinementRecord
  packages : List DataPackage
  clock : Nat
deriving DecidableEq, Repr

/-- The `Dataset.query.get(dataset_id)`: lookup by primary key. -/
def getDataset (s : DBState) (dataset_id : String) : Option Dataset :=
  s.datasets.find? (fun d => d.id == dataset_id)

/-- The `Deduplicator` (`backend/pipeline/deduplicator.py`): its only instance
state is the semantic similarity threshold (default 0.95). -/
structure Deduplicator where
  similarity_threshold : ℚ := 95 / 100
deriving DecidableEq, Repr

/-- Return shape of `Deduplicator.find_duplicates`. -/
structure DedupResult where
  duplicate_groups : List (List String)
  duplicates_found : Nat
  method_used : String
deriving DecidableEq, Repr

/-- The `Deduplicator.find_duplicates` (`backend/pipeline/deduplicator.py`,
lines 26-46): the placeholder body returns no duplicate groups and echoes
the requested method, for every `method` argument and every item list;
it performs no validation and cannot fail. -/
def find_duplicates (self : Deduplicator) (item_paths : List String)
    (method : String) : DedupResult :=
  { duplicate_groups := []
    duplicates_found := 0
    method_used := method }

/-- The `QualityScorer.__init__` weights (`backend/pipeline/quality_scorer.py`,
lines 19-27). -/
def qualityWeights : QualityScores :=
  { completeness := 2 / 10
    clarity := 25 / 100
    relevance := 25 / 100
    format_validity := 2 / 10
    metadata_quality := 1 / 10 }

/-- The weighted aggregate `Σ(dimension × weight)` over the
`QualityScorer.__init__` weight vector. -/
def weightedAggregate (q : QualityScores) : ℚ :=
  q.completeness * qualityWeights.completeness
    + q.clarity * qualityWeights.clarity
    + q.relevance * qualityWeights.relevance
    + q.format_validity * qualityWeights.format_validity
    + q.metadata_quality * qualityWeights.metadata_quality

/-- The `RefinementService._score_quality` (`refine_service.py`, lines 93-114):
fixed placeholder dimension scores; the overall score is
`sum(scores.values()) / len(scores)`, the unweighted mean. -/
def scoreQuality : QualityScores × ℚ :=
  let scores : QualityScores :=
    { completeness := 85 / 100
      clarity := 90 / 100
      relevance := 75 / 100
      format_validity := 95 / 100
      metadata_quality := 65 / 100 }
  let overall := (scores.completeness + scores.clarity + scores.relevance
    + scores.format_validity + scores.metadata_quality) / 5
  (scores, overall)

/-- Return shape of `RefinementService._deduplicate`. -/
structure ServiceDedupResult where
  duplicates_found : Nat
  method : String
  rejected_items : List String
  similarity_threshold : ℚ
deriving DecidableEq, Repr

/-- The `RefinementService._deduplicate` (`refine_service.py`, lines 116-128):
placeholder returning no duplicates and no rejected items. -/
def deduplicateStage : ServiceDedupResult :=
  { duplicates_found := 0
    method := "hash_and_semantic"
    rejected_items := []
    similarity_threshold := 95 / 100 }

/-- The `RefinementService._classify_data` (`refine_service.py`, lines 130-156):
placeholder distributions. -/
def classifyData : Classifications :=
  [("languages", [("en", 92 / 100), ("es", 8 / 100)]),
   ("modalities", [("text", 1)]),
   ("domains", [("general", 7 / 10), ("technical", 3 / 10)]),
   ("content_types",
     [("conversation", 1 / 2), ("instructions", 3 / 10), ("creative", 1 / 5)])]

/-- The `RefinementService._count_passing_items` (`refine_service.py`,
lines 158-167): `int(dataset.file_count * 0.95)`, modelled as the floor
`file_count * 95 / 100` (the two agree at every input used below); the
`quality_threshold` and `rejected_items` arguments are received but unused,
exactly as in the source. -/
def countPassingItems (file_count : Nat) (quality_threshold : ℚ)
    (rejected_items : List String) : Nat :=
  file_count * 95 / 100

/-- The `RefinementService.refine_dataset` (`refine_service.py`, lines 33-91),
for a dataset that has been found: builds the `RefinementRecord` from the
four pipeline stages, sets the dataset's stage to REFINED and its
`quality_score` to the record's overall quality, and commits the record.
Returns the record, the new state, and the ordered list of assignments made
to `dataset.stage` during the run (the source makes exactly one, at line 85,
after all pipeline stages). -/
def refineFound (s : DBState) (dataset : Dataset) (dataset_id : String)
    (quality_threshold : ℚ) :
    RefinementRecord × DBState × List PipelineStage :=
  let quality := scoreQuality
  let dedup := deduplicateStage
  let classifications := classifyData
  let passed_count :=
    countPassingItems dataset.file_count quality_threshold dedup.rejected_items
  let record : RefinementRecord :=
    { dataset_id := dataset_id
      pipeline_stage := "full_refinement"
      quality_scores := quality.1
      overall_quality := quality.2
      items_processed := dataset.file_count
      items_passed := passed_count
      items_rejected := dataset.file_count - passed_count
      classifications := classifications
      duplicates_found := dedup.duplicates_found
      duplicate_removal_method := dedup.method
      created_at := s.clock }
  let dataset' : Dataset :=
    { dataset with stage := PipelineStage.refined, quality_score := quality.2 }
  let s' : DBState :=
    { s with
      datasets := s.datasets.map (fun d => if d.id == dataset_id then dataset' else d)
      records := s.records ++ [record]
      clock := s.clock + 1 }
  (record, s', [PipelineStage.refined])

/-- The `RefinementService.refine_dataset` (`refine_service.py`, lines 33-91):
raises `ValueError` when the dataset id is unknown, otherwise runs the
pipeline. Note the service itself never validates `quality_threshold`. -/
def refineDataset (s : DBState) (dataset_id : String) (quality_threshold : ℚ) :
    Except String (RefinementRecord × DBState × List PipelineStage) :=
  match getDataset s dataset_id with
  | none => Except.error ("Dataset " ++ dataset_id ++ " not found")
  | some dataset => Except.ok (refineFound s dataset dataset_id quality_threshold)

/-- Error kinds of the HTTP layer (`backend/routes/refinement_routes.py`):
`notFound` is the 404 response, `validation` the 400 response. -/
inductive RouteError where
  | notFound
  | validation
deriving DecidableEq, Repr

/-- The `/api/refinement/refine/<dataset_id>` route handler
(`refinement_routes.py`, lines 13-57): 404 when the dataset does not exist,
400 when `quality_threshold` lies outside [0,1] (both checked before the
service is invoked, so the state is returned untouched), otherwise the
service runs; a `ValueError` escaping the service is mapped to 400. -/
def refineRoute (s : DBState) (dataset_id : String) (quality_threshold : ℚ) :
    Except RouteError (RefinementRecord × DBState) × DBState :=
  match getDataset s dataset_id with
  | none => (Except.error RouteError.notFound, s)
  | some _ =>
    if quality_threshold < 0 ∨ quality_threshold > 1 then
      (Except.error RouteError.validation, s)
    else
      match refineDataset s dataset_id quality_threshold with
      | Except.ok (record, s', _) => (Except.ok (record, s'), s')
      | Except.error _ => (Except.error RouteError.validation, s)

/-- The `/api/refinement/deduplication/<dataset_id>` route handler
(`refinement_routes.py`, lines 130-150): 404 when the dataset does not
exist, 400 when `method` is not one of hash/semantic/hybrid; otherwise it
answers with the placeholder result. It never calls the `Deduplicator` and
never writes to the store. -/
def dedupRoute (s : DBState) (dataset_id : String) (method : String) :
    Except RouteError (Nat × String × List (List String)) × DBState :=
  match getDataset s dataset_id with
  | none => (Except.error RouteError.notFound, s)
  | some _ =>
    if method ∈ (["hash", "semantic", "hybrid"] : List String) then
      (Except.ok (0, method, []), s)
    else
      (Except.error RouteError.validation, s)

/-- The `RefinementRecord.query.filter_by(dataset_id=...)`: the record rows of
one dataset, in insertion order. -/
def recordsFor (s : DBState) (dataset_id : String) : List RefinementRecord :=
  s.records.filter (fun r => r.dataset_id == dataset_id)

/-- Insertion step of the `order_by(created_at)` sort. -/
def insertByTime (r : RefinementRecord) :
    List RefinementRecord → List RefinementRecord
  | [] => [r]
  | x :: xs =>
    if r.created_at < x.created_at then r :: x :: xs else x :: insertByTime r xs

/-- The `order_by(RefinementRecord.created_at)`: sort ascending by timestamp. -/
def sortByTime : List RefinementRecord → List RefinementRecord
  | [] => []
  | x :: xs => insertByTime x (sortByTime xs)

/-- The `/api/refinement/history/<dataset_id>` route handler
(`refinement_routes.py`, lines 82-103): the dataset's records ordered by
creation time. -/
def refinementHistory (s : DBState) (dataset_id : String) :
    List RefinementRecord :=
  sortByTime (recordsFor s dataset_id)

/-- Combining step of `order_by(created_at.desc()).first()`: keep the later
of two records (the earlier one on a timestamp tie). -/
def laterRecord (a b : RefinementRecord) : RefinementRecord :=
  if a.created_at < b.created_at then b else a

/-- The `RefinementRecord.query.filter_by(dataset_id=...).order_by(created_at.desc()).first()`:
the dataset's record with the greatest creation time, if any. -/
def latestRecord (s : DBState) (dataset_id : String) : Option RefinementRecord :=
  match recordsFor s dataset_id with
  | [] => none
  | r :: rs => some (rs.foldl laterRecord r)

/-- The `processing_summary` dict of `export_refinement_metrics`. -/
structure ProcessingSummary where
  items_processed : Nat
  items_passed : Nat
  items_rejected : Nat
  pass_rate : ℚ
deriving DecidableEq, Repr

/-- Return shape of `RefinementService.export_refinement_metrics`. -/
structure RefinementMetrics where
  quality_scores : QualityScores
  classifications : Classifications
  duplicates_found : Nat
  duplicate_removal_method : String
  processing_summary : ProcessingSummary
  timestamp : Nat
deriving DecidableEq, Repr

/-- The `RefinementService.export_refinement_metrics` (`refine_service.py`,
lines 188-213): `None` when the dataset has no refinement record; otherwise
the latest record's metrics, with
`pass_rate = items_passed / items_processed * 100` guarded by
`if record.items_processed > 0 else 0`. -/
def exportRefinementMetrics (s : DBState) (dataset_id : String) :
    Option RefinementMetrics :=
  match latestRecord s dataset_id with
  | none => none
  | some record =>
    some
      { quality_scores := record.quality_scores
        classifications := record.classifications
        duplicates_found := record.duplicates_found
        duplicate_removal_method := record.duplicate_removal_method
        processing_summary :=
          { items_processed := record.items_processed
            items_passed := record.items_passed
            items_rejected := record.items_rejected
            pass_rate :=
              if record.items_processed > 0 then
                (record.items_passed : ℚ) / (record.items_processed : ℚ) * 100
              else 0 }
        timestamp := record.created_at }

/-- The two distinct `ValueError` raise sites of
`PackageService.create_package`: dataset not found, and dataset not yet
refined ("Dataset must be refined before packaging"). -/
inductive PackageError where
  | notFound
  | notPackageable
deriving DecidableEq, Repr

/-- The `PackageService.create_package` (`package_service.py`, lines 24-93),
for a dataset that has been found: fails when its stage is not REFINED;
otherwise builds the package, taking `items_count`, `quality_score` and the
quality-metrics dict from the latest refinement record (falling back to the
dataset row when no record exists), commits it, and moves the dataset to
PACKAGED. -/
def createPackageFound (s : DBState) (dataset : Dataset)
    (dataset_id name description version : String)
    (license_type : String) : Except PackageError (DataPackage × DBState) :=
    if dataset.stage ≠ PipelineStage.refined then
      Except.error PackageError.notPackageable
    else
      let latest_refinement := latestRecord s dataset_id
      let quality_metrics : QualityMetrics :=
        { overall_score :=
            match latest_refinement with
            | some r => r.overall_quality
            | none => dataset.quality_score
          items_included :=
            match latest_refinement with
            | some r => r.items_passed
            | none => dataset.file_count
          quality_breakdown := latest_refinement.map (fun r => r.quality_scores) }
      let package : DataPackage :=
        { source_dataset_id := dataset_id
          name := name
          description := description
          version := version
          items_count :=
            match latest_refinement with
            | some r => r.items_passed
            | none => dataset.file_count
          package_size_bytes := dataset.total_size_bytes
          quality_score :=
            match latest_refinement with
            | some r => r.overall_quality
            | none => dataset.quality_score
          quality_metrics := quality_metrics
          license_type := license_type
          created_at := s.clock }
      let dataset' : Dataset := { dataset with stage := PipelineStage.packaged }
      Except.ok (package,
        { s with
          datasets := s.datasets.map (fun d => if d.id == dataset_id then dataset' else d)
          packages := s.packages ++ [package]
          clock := s.clock + 1 })

/-- The `PackageService.create_package` (`package_service.py`, lines 24-93):
fails when the dataset does not exist, otherwise proceeds on the found
dataset. -/
def createPackage (s : DBState) (dataset_id name description version : String)
    (license_type : String) : Except PackageError (DataPackage × DBState) :=
  match getDataset s dataset_id with
  | none => Except.error PackageError.notFound
  | some dataset =>
    createPackageFound s dataset dataset_id name description version license_type

/-- Modelled from the spec's filtering rule (spec §4.4 step 7), for
comparison with the source's `_count_passing_items`: each item carries its
quality score and its was-rejected-by-dedup flag; an item is rejected iff
its score is below the threshold or the flag is set, and the passed count
is the number of items not rejected. -/
def specPassedCount (items : List (ℚ × Bool)) (quality_threshold : ℚ) : Nat :=
  (items.filter (fun it => quality_threshold ≤ it.1 ∧ it.2 = false)).length

/-- Projection: the committed record of a successful refinement run. -/
def recordOfRun
    (r : Except String (RefinementRecord × DBState × List PipelineStage)) :
    Option RefinementRecord :=
  match r with
  | Except.ok x => some x.1
  | Except.error _ => none

/-- Projection: the stage-write trace of a refinement run (empty on error). -/
def stageWritesOfRun
    (r : Except String (RefinementRecord × DBState × List PipelineStage)) :
    List PipelineStage :=
  match r with
  | Except.ok x => x.2.2
  | Except.error _ => []

/-! ### Helper lemmas -/

theorem refineFound_created_at (s : DBState) (d : Dataset) (dsId : String)
    (qt : ℚ) : (refineFound s d dsId qt).1.created_at = s.clock := rfl

theorem refineFound_dataset_id (s : DBState) (d : Dataset) (dsId : String)
    (qt : ℚ) : (refineFound s d dsId qt).1.dataset_id = dsId := rfl

theorem refineFound_items_processed (s : DBState) (d : Dataset) (dsId : String)
    (qt : ℚ) : (refineFound s d dsId qt).1.items_processed = d.file_count := rfl

theorem refineFound_items_passed (s : DBState) (d : Dataset) (dsId : String)
    (qt : ℚ) :
    (refineFound s d dsId qt).1.items_passed = d.file_count * 95 / 100 := rfl

theorem refineFound_items_rejected (s : DBState) (d : Dataset) (dsId : String)
    (qt : ℚ) :
    (refineFound s d dsId qt).1.items_rejected
      = d.file_count - d.file_count * 95 / 100 := rfl

theorem refineFound_overall (s : DBState) (d : Dataset) (dsId : String)
    (qt : ℚ) : (refineFound s d dsId qt).1.overall_quality = scoreQuality.2 := rfl

theorem refineFound_scores (s : DBState) (d : Dataset) (dsId : String)
    (qt : ℚ) : (refineFound s d dsId qt).1.quality_scores = scoreQuality.1 := rfl

theorem refineFound_state_records (s : DBState) (d : Dataset) (dsId : String)
    (qt : ℚ) :
    (refineFound s d dsId qt).2.1.records
      = s.records ++ [(refineFound s d dsId qt).1] := rfl

theorem refineFound_state_datasets (s : DBState) (d : Dataset) (dsId : String)
    (qt : ℚ) :
    (refineFound s d dsId qt).2.1.datasets
      = s.datasets.map (fun x =>
          if x.id == dsId then
            { d with stage := PipelineStage.refined,
                     quality_score := scoreQuality.2 }
          else x) := rfl

theorem refineFound_state_clock (s : DBState) (d : Dataset) (dsId : String)
    (qt : ℚ) : (refineFound s d dsId qt).2.1.clock = s.clock + 1 := rfl

theorem refineFound_trace (s : DBState) (d : Dataset) (dsId : String)
    (qt : ℚ) : (refineFound s d dsId qt).2.2 = [PipelineStage.refined] := rfl

theorem refineDataset_ok (s : DBState) (dsId : String) (qt : ℚ) (d : Dataset)
    (r : RefinementRecord) (s' : DBState) (tr : List PipelineStage)
    (hg : getDataset s dsId = some d)
    (h : refineDataset s dsId qt = Except.ok (r, s', tr)) :
    refineFound s d dsId qt = (r, s', tr) := by
  unfold refineDataset at h
  rw [hg] at h
  exact Except.ok.inj h

theorem countPassing_le (n : Nat) : n * 95 / 100 ≤ n := by
  calc n * 95 / 100 ≤ n * 100 / 100 :=
        Nat.div_le_div_right (Nat.mul_le_mul_left n (by norm_num))
    _ = n := Nat.mul_div_cancel n (by norm_num)

theorem find?_update (l : List Dataset) (dsId : String) (d d' : Dataset)
    (hfind : l.find? (fun x => x.id == dsId) = some d) (hid : d'.id = dsId) :
    (l.map (fun x => if x.id == dsId then d' else x)).find?
        (fun x => x.id == dsId) = some d' := by
  induction l with
  | nil => simp [List.find?] at hfind
  | cons a l ih =>
    by_cases ha : a.id = dsId
    · simp [List.find?, ha, hid]
    · have hne : (a.id == dsId) = false := beq_false_of_ne ha
      simp only [List.find?_cons, hne] at hfind
      simp only [List.map_cons, hne, Bool.false_eq_true, if_false,
        List.find?_cons]
      exact ih hfind

theorem mem_insertByTime (r x : RefinementRecord) (l : List RefinementRecord) :
    x ∈ insertByTime r l ↔ x = r ∨ x ∈ l := by
  induction l with
  | nil => simp [insertByTime]
  | cons a l ih =>
    simp only [insertByTime]
    split
    · simp
    · simp only [List.mem_cons, ih]
      tauto

theorem mem_sortByTime (x : RefinementRecord) (l : List RefinementRecord) :
    x ∈ sortByTime l ↔ x ∈ l := by
  induction l with
  | nil => simp [sortByTime]
  | cons a l ih => simp [sortByTime, mem_insertByTime, ih]

theorem foldl_laterRecord_mem (l : List RefinementRecord)
    (r : RefinementRecord) :
    l.foldl laterRecord r = r ∨ l.foldl laterRecord r ∈ l := by
  induction l generalizing r with
  | nil => left; rfl
  | cons a l ih =>
    simp only [List.foldl_cons]
    rcases ih (laterRecord r a) with h | h
    · rw [h]
      unfold laterRecord
      split
      · right; exact List.mem_cons_self a l
      · left; rfl
    · right; exact List.mem_cons_of_mem a h

theorem foldl_laterRecord_le (l : List RefinementRecord) :
    ∀ r x : RefinementRecord, x = r ∨ x ∈ l →
      x.created_at ≤ (l.foldl laterRecord r).created_at := by
  induction l with
  | nil =>
    intro r x hx
    rcases hx with rfl | h
    · exact le_refl _
    · cases h
  | cons a l ih =>
    intro r x hx
    simp only [List.foldl_cons]
    have hr : r.created_at ≤ (laterRecord r a).created_at := by
      unfold laterRecord; split <;> omega
    have ha : a.created_at ≤ (laterRecord r a).created_at := by
      unfold laterRecord; split <;> omega
    have hfold :=
      ih (laterRecord r a) (laterRecord r a) (Or.inl rfl)
    rcases hx with rfl | hx
    · exact le_trans hr hfold
    · rcases List.mem_cons.mp hx with rfl | hx
      · exact le_trans ha hfold
      · exact ih (laterRecord r a) x (Or.inr hx)

theorem latestRecord_spec (s : DBState) (dsId : String) (m : RefinementRecord)
    (h : latestRecord s dsId = some m) :
    m ∈ recordsFor s dsId ∧
      ∀ r ∈ recordsFor s dsId, r.created_at ≤ m.created_at := by
  unfold latestRecord at h
  cases hrec : recordsFor s dsId with
  | nil => rw [hrec] at h; cases h
  | cons a l =>
    rw [hrec] at h
    have hm : l.foldl laterRecord a = m := Option.some.inj h
    constructor
    · rcases foldl_laterRecord_mem l a with he | he
      · rw [← hm, he]
        exact List.mem_cons_self a l
      · rw [← hm]
        exact List.mem_cons_of_mem a he
    · intro r hr
      rw [← hm]
      rcases List.mem_cons.mp hr with h | h
      · rw [h]
        exact foldl_laterRecord_le l a a (Or.inl rfl)
      · exact foldl_laterRecord_le l a r (Or.inr h)

/-! ### Concrete states used to instantiate the theorems -/

/-- A stored dataset with 20 items. -/
def dsA : Dataset :=
  { id := "d1"
    file_count := 20
    total_size_bytes := 1000
    stage := PipelineStage.stored
    quality_score := 0 }

/-- Store holding only `dsA`, no refinement history. -/
def stateA : DBState :=
  { datasets := [dsA], records := [], packages := [], clock := 0 }

/-- The record committed by refining `dsA` in `stateA`. -/
def recA1 : RefinementRecord :=
  { dataset_id := "d1"
    pipeline_stage := "full_refinement"
    quality_scores :=
      { completeness := 85 / 100
        clarity := 90 / 100
        relevance := 75 / 100
        format_validity := 95 / 100
        metadata_quality := 65 / 100 }
    overall_quality := 41 / 50
    items_processed := 20
    items_passed := 19
    items_rejected := 1
    classifications := classifyData
    duplicates_found := 0
    duplicate_removal_method := "hash_and_semantic"
    created_at := 0 }

/-- The `dsA` after a successful refinement run. -/
def dsA' : Dataset :=
  { dsA with stage := PipelineStage.refined, quality_score := 41 / 50 }

/-- The `stateA` after one refinement run. -/
def stateA1 : DBState :=
  { datasets := [dsA'], records := [recA1], packages := [], clock := 1 }

/-- The record committed by a second refinement run. -/
def recA2 : RefinementRecord := { recA1 with created_at := 1 }

/-- The `stateA` after two refinement runs. -/
def stateA2 : DBState :=
  { datasets := [dsA'], records := [recA1, recA2], packages := [], clock := 2 }

/-- A refinement record with zero items processed. -/
def recZero : RefinementRecord :=
  { dataset_id := "d1"
    pipeline_stage := "full_refinement"
    quality_scores :=
      { completeness := 0, clarity := 0, relevance := 0,
        format_validity := 0, metadata_quality := 0 }
    overall_quality := 0
    items_processed := 0
    items_passed := 0
    items_rejected := 0
    classifications := []
    duplicates_found := 0
    duplicate_removal_method := "hash_and_semantic"
    created_at := 0 }

/-- Store whose only refinement record has `items_processed = 0`. -/
def stateB : DBState :=
  { datasets := [dsA], records := [recZero], packages := [], clock := 1 }

theorem refineDataset_ok_inv (s : DBState) (dsId : String) (qt : ℚ)
    (r : RefinementRecord) (s' : DBState) (tr : List PipelineStage)
    (h : refineDataset s dsId qt = Except.ok (r, s', tr)) :
    ∃ d, getDataset s dsId = some d ∧ refineFound s d dsId qt = (r, s', tr) := by
  unfold refineDataset at h
  cases hg : getDataset s dsId with
  | none => rw [hg] at h; cases h
  | some d => rw [hg] at h; exact ⟨d, rfl, Except.ok.inj h⟩

/-! ### Claims -/

/-- C1, as stated, fails on the code: the run on a stored dataset commits
`overall_quality = 0.82`, the unweighted mean of the five placeholder
dimension scores, while the weighted sum over the `QualityScorer.__init__`
weights (0.20, 0.25, 0.25, 0.20, 0.10) of those same scores is 0.8375; the
two differ by 0.0175, far beyond the 1e-9 tolerance. -/
theorem overall_quality_not_weighted_sum :
    recordOfRun (refineDataset stateA "d1" (1 / 2)) = some recA1 ∧
    recA1.overall_quality = 41 / 50 ∧
    weightedAggregate recA1.quality_scores = 8375 / 10000 ∧
    ¬ |recA1.overall_quality - weightedAggregate recA1.quality_scores|
        ≤ 1 / 1000000000 := by
  refine ⟨by with_unfolding_all rfl, rfl, by with_unfolding_all rfl, ?_⟩
  with_unfolding_all decide

/-- C1 amended: for every dataset refined by `refine_dataset`, the aggregate
quality stored in the `RefinementRecord` equals the unweighted arithmetic
mean of the five dimension scores (uniform weight 0.2 each), i.e.
`sum(scores.values()) / len(scores)`; the weights of
`QualityScorer.__init__` are never applied. -/
theorem overall_quality_is_unweighted_mean (s : DBState) (dsId : String)
    (qt : ℚ) (d : Dataset) (r : RefinementRecord) (s' : DBState)
    (tr : List PipelineStage)
    (hg : getDataset s dsId = some d)
    (h : refineDataset s dsId qt = Except.ok (r, s', tr)) :
    r.overall_quality
      = (r.quality_scores.completeness + r.quality_scores.clarity
          + r.quality_scores.relevance + r.quality_scores.format_validity
          + r.quality_scores.metadata_quality) / 5 := by
  have he := refineDataset_ok s dsId qt d r s' tr hg h
  have hr : (refineFound s d dsId qt).1 = r := congrArg Prod.fst he
  rw [← hr]
  rfl

/-- Witness for C1 amended: the refinement run on `stateA`. -/
theorem overall_quality_is_unweighted_mean_witness :
    recA1.overall_quality
      = (recA1.quality_scores.completeness + recA1.quality_scores.clarity
          + recA1.quality_scores.relevance + recA1.quality_scores.format_validity
          + recA1.quality_scores.metadata_quality) / 5 :=
  overall_quality_is_unweighted_mean stateA "d1" (1 / 2) dsA recA1 stateA1
    [PipelineStage.refined] (by with_unfolding_all rfl)
    (by with_unfolding_all rfl)

/-- C2, as stated, fails on the code: refining a 20-item dataset with
threshold 0.5 records `items_passed = 19` (`int(20 * 0.95)`), although
every item carries the run's uniform quality score 0.82 ≥ 0.5 and the
run's deduplication stage rejects nothing, so the spec's filtering rule
predicts 20 items passed. -/
theorem items_passed_ignores_filter_rule :
    recordOfRun (refineDataset stateA "d1" (1 / 2)) = some recA1 ∧
    recA1.items_passed = 19 ∧
    specPassedCount (List.replicate 20 (41 / 50, false)) (1 / 2) = 20 ∧
    (19 : Nat) ≠ 20 := by
  refine ⟨by with_unfolding_all rfl, rfl, ?_, by decide⟩
  with_unfolding_all rfl

/-- C2 amended: the recorded `items_passed` is the placeholder count
`int(file_count * 0.95)`, independent of `quality_threshold` and of the
deduplication results. -/
theorem items_passed_is_fixed_fraction (s : DBState) (dsId : String) (qt : ℚ)
    (d : Dataset) (r : RefinementRecord) (s' : DBState)
    (tr : List PipelineStage)
    (hg : getDataset s dsId = some d)
    (h : refineDataset s dsId qt = Except.ok (r, s', tr)) :
    r.items_passed = d.file_count * 95 / 100 := by
  have he := refineDataset_ok s dsId qt d r s' tr hg h
  have hr : (refineFound s d dsId qt).1 = r := congrArg Prod.fst he
  rw [← hr]
  rfl

/-- Witness for C2 amended: the refinement run on `stateA`. -/
theorem items_passed_is_fixed_fraction_witness :
    recA1.items_passed = dsA.file_count * 95 / 100 :=
  items_passed_is_fixed_fraction stateA "d1" (1 / 2) dsA recA1 stateA1
    [PipelineStage.refined] (by with_unfolding_all rfl)
    (by with_unfolding_all rfl)

/-- C3: at the public boundary (the refine route), an unknown dataset id is
answered with the not-found error (the service itself raises the
"not found" `ValueError`), an out-of-range `quality_threshold` with the
validation error, and in both failure cases the store is returned
unchanged: no `RefinementRecord` is committed and no dataset is touched. -/
theorem refine_route_error_cases (s : DBState) (dsId : String) (qt : ℚ) :
    (getDataset s dsId = none →
      refineDataset s dsId qt
          = Except.error ("Dataset " ++ dsId ++ " not found") ∧
      refineRoute s dsId qt = (Except.error RouteError.notFound, s)) ∧
    ((∃ d, getDataset s dsId = some d) → qt < 0 ∨ qt > 1 →
      refineRoute s dsId qt = (Except.error RouteError.validation, s)) := by
  constructor
  · intro h
    constructor
    · unfold refineDataset
      rw [h]
    · unfold refineRoute
      rw [h]
  · rintro ⟨d, hd⟩ hqt
    unfold refineRoute
    rw [hd]
    rw [if_pos hqt]

/-- Witness for C3: an unknown id in `stateA`, and threshold 1.5 on the
existing dataset. -/
theorem refine_route_error_cases_witness :
    (refineDataset stateA "zz" (1 / 2)
        = Except.error ("Dataset " ++ "zz" ++ " not found") ∧
      refineRoute stateA "zz" (1 / 2)
        = (Except.error RouteError.notFound, stateA)) ∧
    refineRoute stateA "d1" (3 / 2)
      = (Except.error RouteError.validation, stateA) :=
  ⟨(refine_route_error_cases stateA "zz" (1 / 2)).1
      (by with_unfolding_all rfl),
   (refine_route_error_cases stateA "d1" (3 / 2)).2
      ⟨dsA, by with_unfolding_all rfl⟩
      (Or.inr (by with_unfolding_all decide))⟩

/-- C4, as stated, fails on the code: a successful refinement run makes
exactly one assignment to `dataset.stage` — to REFINED, after all pipeline
stages — so no intermediate REFINING stage is ever observable. -/
theorem no_refining_stage_write :
    stageWritesOfRun (refineDataset stateA "d1" (1 / 2))
      = [PipelineStage.refined] ∧
    PipelineStage.refining ∉ stageWritesOfRun (refineDataset stateA "d1" (1 / 2)) := by
  constructor
  · with_unfolding_all rfl
  · with_unfolding_all decide

/-- C4 amended: a successful `refine_dataset` run writes `dataset.stage`
exactly once, setting it to REFINED on completion (never to REFINING), and
sets the dataset's `quality_score` to the committed record's
`overall_quality`. -/
theorem refine_stage_transitions (s : DBState) (dsId : String) (qt : ℚ)
    (d : Dataset) (r : RefinementRecord) (s' : DBState)
    (tr : List PipelineStage)
    (hg : getDataset s dsId = some d)
    (h : refineDataset s dsId qt = Except.ok (r, s', tr)) :
    tr = [PipelineStage.refined] ∧
    getDataset s' dsId
      = some { d with stage := PipelineStage.refined,
                      quality_score := r.overall_quality } := by
  have he := refineDataset_ok s dsId qt d r s' tr hg h
  have hr : (refineFound s d dsId qt).1 = r := congrArg Prod.fst he
  have hs : (refineFound s d dsId qt).2.1 = s' := congrArg (fun x => x.2.1) he
  have htr : (refineFound s d dsId qt).2.2 = tr := congrArg (fun x => x.2.2) he
  have hid : d.id = dsId := by
    have hg' : s.datasets.find? (fun x => x.id == dsId) = some d := hg
    have hfs := List.find?_some hg'
    exact beq_iff_eq.mp hfs
  constructor
  · rw [← htr]
    exact refineFound_trace s d dsId qt
  · rw [← hs, ← hr]
    unfold getDataset
    rw [refineFound_state_datasets]
    exact find?_update s.datasets dsId d _ hg hid

/-- Witness for C4 amended: the refinement run on `stateA`. -/
theorem refine_stage_transitions_witness :
    [PipelineStage.refined] = [PipelineStage.refined] ∧
    getDataset stateA1 "d1"
      = some { dsA with stage := PipelineStage.refined,
                        quality_score := recA1.overall_quality } :=
  refine_stage_transitions stateA "d1" (1 / 2) dsA recA1 stateA1
    [PipelineStage.refined] (by with_unfolding_all rfl)
    (by with_unfolding_all rfl)

/-- C5: every committed `RefinementRecord` satisfies
`items_passed + items_rejected = items_processed`, and `items_processed`
is the dataset's item count at the time of the run. -/
theorem items_count_conservation (s : DBState) (dsId : String) (qt : ℚ)
    (d : Dataset) (r : RefinementRecord) (s' : DBState)
    (tr : List PipelineStage)
    (hg : getDataset s dsId = some d)
    (h : refineDataset s dsId qt = Except.ok (r, s', tr)) :
    r.items_passed + r.items_rejected = r.items_processed ∧
    r.items_processed = d.file_count := by
  have he := refineDataset_ok s dsId qt d r s' tr hg h
  have hr : (refineFound s d dsId qt).1 = r := congrArg Prod.fst he
  constructor
  · rw [← hr, refineFound_items_passed, refineFound_items_rejected,
      refineFound_items_processed]
    have hle := countPassing_le d.file_count
    omega
  · rw [← hr]
    exact refineFound_items_processed s d dsId qt

/-- Witness for C5: the refinement run on `stateA`. -/
theorem items_count_conservation_witness :
    recA1.items_passed + recA1.items_rejected = recA1.items_processed ∧
    recA1.items_processed = dsA.file_count :=
  items_count_conservation stateA "d1" (1 / 2) dsA recA1 stateA1
    [PipelineStage.refined] (by with_unfolding_all rfl)
    (by with_unfolding_all rfl)

/-- C6: running `refine_dataset` twice on the same dataset commits two
distinct records, both retrievable via the refinement history, the second
with a strictly later timestamp; the second run only appends — every
record present after the first run is still present, unchanged, after the
second. -/
theorem refine_twice_append_only (s0 : DBState) (dsId : String) (qt : ℚ)
    (r1 r2 : RefinementRecord) (s1 s2 : DBState)
    (tr1 tr2 : List PipelineStage)
    (h1 : refineDataset s0 dsId qt = Except.ok (r1, s1, tr1))
    (h2 : refineDataset s1 dsId qt = Except.ok (r2, s2, tr2)) :
    r1 ∈ refinementHistory s2 dsId ∧
    r2 ∈ refinementHistory s2 dsId ∧
    r1 ≠ r2 ∧
    r1.created_at < r2.created_at ∧
    s2.records = s1.records ++ [r2] := by
  obtain ⟨d1, hg1, he1⟩ := refineDataset_ok_inv s0 dsId qt r1 s1 tr1 h1
  obtain ⟨d2, hg2, he2⟩ := refineDataset_ok_inv s1 dsId qt r2 s2 tr2 h2
  have hr1 : (refineFound s0 d1 dsId qt).1 = r1 := congrArg Prod.fst he1
  have hr2 : (refineFound s1 d2 dsId qt).1 = r2 := congrArg Prod.fst he2
  have hs1 : (refineFound s0 d1 dsId qt).2.1 = s1 :=
    congrArg (fun x => x.2.1) he1
  have hs2 : (refineFound s1 d2 dsId qt).2.1 = s2 :=
    congrArg (fun x => x.2.1) he2
  have hc1 : r1.created_at = s0.clock := by
    rw [← hr1]; exact refineFound_created_at s0 d1 dsId qt
  have hclk : s1.clock = s0.clock + 1 := by
    rw [← hs1]; exact refineFound_state_clock s0 d1 dsId qt
  have hc2 : r2.created_at = s1.clock := by
    rw [← hr2]; exact refineFound_created_at s1 d2 dsId qt
  have hid1 : r1.dataset_id = dsId := by
    rw [← hr1]; exact refineFound_dataset_id s0 d1 dsId qt
  have hid2 : r2.dataset_id = dsId := by
    rw [← hr2]; exact refineFound_dataset_id s1 d2 dsId qt
  have hrec1 : s1.records = s0.records ++ [r1] := by
    rw [← hs1, refineFound_state_records, hr1]
  have hrec2 : s2.records = s1.records ++ [r2] := by
    rw [← hs2, refineFound_state_records, hr2]
  have hlt : r1.created_at < r2.created_at := by
    rw [hc1, hc2, hclk]; omega
  have hmem1 : r1 ∈ s2.records := by
    rw [hrec2, hrec1]
    exact List.mem_append_left _ (List.mem_append_right _ (List.mem_singleton.mpr rfl))
  have hmem2 : r2 ∈ s2.records := by
    rw [hrec2]
    exact List.mem_append_right _ (List.mem_singleton.mpr rfl)
  refine ⟨?_, ?_, ?_, hlt, hrec2⟩
  · unfold refinementHistory
    rw [mem_sortByTime]
    unfold recordsFor
    exact List.mem_filter.mpr ⟨hmem1, beq_iff_eq.mpr hid1⟩
  · unfold refinementHistory
    rw [mem_sortByTime]
    unfold recordsFor
    exact List.mem_filter.mpr ⟨hmem2, beq_iff_eq.mpr hid2⟩
  · intro heq
    rw [heq] at hlt
    exact lt_irrefl _ hlt

/-- Witness for C6: two consecutive refinement runs on `stateA`. -/
theorem refine_twice_append_only_witness :
    recA1 ∈ refinementHistory stateA2 "d1" ∧
    recA2 ∈ refinementHistory stateA2 "d1" ∧
    recA1 ≠ recA2 ∧
    recA1.created_at < recA2.created_at ∧
    stateA2.records = stateA1.records ++ [recA2] :=
  refine_twice_append_only stateA "d1" (1 / 2) recA1 recA2 stateA1 stateA2
    [PipelineStage.refined] [PipelineStage.refined]
    (by with_unfolding_all rfl) (by with_unfolding_all rfl)

/-- C7: `create_package` fails with the not-packageable error for every
existing dataset whose stage is not REFINED; when the dataset is REFINED
and has refinement history, it succeeds and takes the package's quality
score, item count and quality-metrics dict from the record with the
greatest creation time. -/
theorem create_package_requires_refined (s : DBState)
    (dsId pkg_name pkg_desc ver lic : String) (d : Dataset)
    (hg : getDataset s dsId = some d) :
    (d.stage ≠ PipelineStage.refined →
      createPackage s dsId pkg_name pkg_desc ver lic
        = Except.error PackageError.notPackageable) ∧
    (∀ m : RefinementRecord, d.stage = PipelineStage.refined →
      latestRecord s dsId = some m →
      m ∈ recordsFor s dsId ∧
      (∀ r ∈ recordsFor s dsId, r.created_at ≤ m.created_at) ∧
      ∃ p s', createPackage s dsId pkg_name pkg_desc ver lic
          = Except.ok (p, s') ∧
        p.quality_score = m.overall_quality ∧
        p.items_count = m.items_passed ∧
        p.quality_metrics.overall_score = m.overall_quality ∧
        p.quality_metrics.items_included = m.items_passed ∧
        p.quality_metrics.quality_breakdown = some m.quality_scores) := by
  have hcp : createPackage s dsId pkg_name pkg_desc ver lic
      = createPackageFound s d dsId pkg_name pkg_desc ver lic := by
    unfold createPackage
    rw [hg]
  constructor
  · intro hstage
    rw [hcp]
    unfold createPackageFound
    rw [if_pos hstage]
  · intro m hstage hlatest
    obtain ⟨hmem, hmax⟩ := latestRecord_spec s dsId m hlatest
    refine ⟨hmem, hmax, ?_⟩
    rw [hcp]
    unfold createPackageFound
    rw [if_neg (fun hne => hne hstage), hlatest]
    exact ⟨_, _, rfl, rfl, rfl, rfl, rfl, rfl⟩

/-- Witness for C7: the refused packaging of the stored dataset in `stateA`
and the successful packaging of the refined dataset in `stateA1`. -/
theorem create_package_requires_refined_witness :
    createPackage stateA "d1" "pkg" "pkg of d1" "1.0" "proprietary"
      = Except.error PackageError.notPackageable ∧
    (recA1 ∈ recordsFor stateA1 "d1" ∧
      (∀ r ∈ recordsFor stateA1 "d1", r.created_at ≤ recA1.created_at) ∧
      ∃ p s', createPackage stateA1 "d1" "pkg" "pkg of d1" "1.0" "proprietary"
          = Except.ok (p, s') ∧
        p.quality_score = recA1.overall_quality ∧
        p.items_count = recA1.items_passed ∧
        p.quality_metrics.overall_score = recA1.overall_quality ∧
        p.quality_metrics.items_included = recA1.items_passed ∧
        p.quality_metrics.quality_breakdown = some recA1.quality_scores) :=
  ⟨(create_package_requires_refined stateA "d1" "pkg" "pkg of d1" "1.0"
      "proprietary" dsA (by with_unfolding_all rfl)).1
      (by with_unfolding_all decide),
   (create_package_requires_refined stateA1 "d1" "pkg" "pkg of d1" "1.0"
      "proprietary" dsA' (by with_unfolding_all rfl)).2 recA1
      (by with_unfolding_all rfl) (by with_unfolding_all rfl)⟩

/-- C8, as stated, fails on the code: `Deduplicator.find_duplicates` does
not validate its `method` argument — called with the unknown method
"bogus" it returns normally, echoing the method, instead of failing. -/
theorem find_duplicates_accepts_any_method :
    find_duplicates {} ["a.txt"] "bogus"
      = { duplicate_groups := [], duplicates_found := 0,
          method_used := "bogus" } := rfl

/-- C8 amended: the unknown-method validation lives in the HTTP
deduplication route, not in `Deduplicator.find_duplicates`: for an
existing dataset and a method outside hash/semantic/hybrid the route
answers with the validation error, touching no state and calling no
pipeline component, while `find_duplicates` itself returns a normal result
for every method argument. -/
theorem dedup_method_validated_at_route (s : DBState) (dsId method : String)
    (self : Deduplicator) (d : Dataset)
    (hg : getDataset s dsId = some d)
    (hm : method ∉ (["hash", "semantic", "hybrid"] : List String)) :
    dedupRoute s dsId method = (Except.error RouteError.validation, s) ∧
    ∀ items : List String,
      find_duplicates self items method
        = { duplicate_groups := [], duplicates_found := 0,
            method_used := method } := by
  constructor
  · unfold dedupRoute
    rw [hg, if_neg hm]
  · intro items
    rfl

/-- Witness for C8 amended: method "bogus" on the dataset of `stateA`. -/
theorem dedup_method_validated_at_route_witness :
    dedupRoute stateA "d1" "bogus"
      = (Except.error RouteError.validation, stateA) ∧
    ∀ items : List String,
      find_duplicates { similarity_threshold := 95 / 100 } items "bogus"
        = { duplicate_groups := [], duplicates_found := 0,
            method_used := "bogus" } :=
  dedup_method_validated_at_route stateA "d1" "bogus"
    { similarity_threshold := 95 / 100 } dsA
    (by with_unfolding_all rfl) (by with_unfolding_all decide)

/-- C9: hash-method deduplication is deterministic over the item set —
two calls on the same item list yield identical duplicate groups, whatever
the deduplicator instances' similarity thresholds. -/
theorem hash_dedup_idempotent (self1 self2 : Deduplicator)
    (items : List String) :
    (find_duplicates self1 items "hash").duplicate_groups
      = (find_duplicates self2 items "hash").duplicate_groups := rfl

/-- C10: `export_refinement_metrics` returns `None` for a dataset with no
refinement records, and when the latest record has `items_processed = 0`
the reported pass rate is 0 (the guarded branch). -/
theorem export_metrics_guarded (s : DBState) (dsId : String) :
    (recordsFor s dsId = [] → exportRefinementMetrics s dsId = none) ∧
    (∀ r : RefinementRecord, latestRecord s dsId = some r →
      r.items_processed = 0 →
      ∃ m, exportRefinementMetrics s dsId = some m ∧
        m.processing_summary.pass_rate = 0) := by
  constructor
  · intro h
    unfold exportRefinementMetrics latestRecord
    rw [h]
  · intro r hr hzero
    unfold exportRefinementMetrics
    rw [hr]
    refine ⟨_, rfl, ?_⟩
    simp [hzero]

/-- Witness for C10: the empty history of `stateA` and the zero-item
record of `stateB`. -/
theorem export_metrics_guarded_witness :
    exportRefinementMetrics stateA "d1" = none ∧
    ∃ m, exportRefinementMetrics stateB "d1" = some m ∧
      m.processing_summary.pass_rate = 0 :=
  ⟨(export_metrics_guarded stateA "d1").1 (by with_unfolding_all rfl),
   (export_metrics_guarded stateB "d1").2 recZero
      (by with_unfolding_all rfl) rfl⟩
